import Mathlib

/-
Verification model of the substreams pipeline core.

The definitions below are a shallow embedding of the Go sources:
  - the per-block handler returned by Pipeline.HandlerFactory, together with
    Pipeline.returnOutputs, Pipeline.returnFailureProgress and the calls the
    handler makes into saveStoresSnapshots and the output cache
    (package pipeline, pipeline.go);
  - BuildRequestDetails and resolveStartBlockNum (package pipeline);
  - WithBytesMeter (package service, options.go);
  - recurseCommands (package cli).

External collaborators (the bstream library, the wasm runtime, blob storage,
the gRPC response function) are modelled as oracle inputs: each fallible
external call is represented by a value describing its outcome for the run
under consideration.  The handler is modelled as a pure function from the
pipeline configuration, the per-block executor behaviours and the block to
the ordered trace of observable events it performs plus its returned error.
-/

namespace SubstreamsSpec

/-- Step flags of the external bstream library. Steps are distinct bits and
are compared with a bitwise-and Matches test, mirroring bstream StepType. -/
abbrev StepType := Nat

def stepNew : StepType := 1

def stepUndo : StepType := 2

def stepIrreversible : StepType := 16

/-- Matches test of bstream StepType: the bitwise intersection is nonzero. -/
def stepMatches (a b : StepType) : Bool := a &&& b != 0

/-- Clock of a block: (blockNum, blockId, timestamp), as built at the top of
the block handler. -/
structure Clock where
  number : Nat
  id : String
  timestamp : Nat
deriving DecidableEq

/-- ModuleOutput message entry appended after each successful executor run:
name, output data, captured logs and the log truncation flag. -/
structure ModuleOutput where
  name : String
  data : Option String
  logs : List String
  logsTruncated : Bool
deriving DecidableEq

/-- BlockRange of a ProcessedRanges progress entry. -/
structure BlockRange where
  startBlock : Nat
  endBlock : Nat
deriving DecidableEq

/-- Progress payload of a ModuleProgress entry: either processed ranges or a
failure with an optional reason, logs and the truncation flag.  This mirrors
the oneof Type of pbsubstreams.ModuleProgress. -/
inductive ProgressType where
  | processedRanges (ranges : List BlockRange)
  | failed (reason : Option String) (logs : List String) (logsTruncated : Bool)
deriving DecidableEq

/-- ModuleProgress entry of a ModulesProgress response. -/
structure ModuleProgress where
  name : String
  progress : ProgressType
deriving DecidableEq

/-- Response messages sent through respFunc by the block handler. -/
inductive Message where
  | blockScopedData (outputs : List ModuleOutput) (clock : Clock)
      (step : StepType) (cursor : String)
  | modulesProgress (modules : List ModuleProgress)
deriving DecidableEq

/-- Observable events of one invocation of the block handler, in order. -/
inductive Event where
  | cacheUpdate
  | preBlockHook
  | saveStoresSnapshots (blockNum : Nat)
  | saveOutputCaches
  | executeModule (name : String)
  | send (m : Message)
  | flushStores
  | postJobHook
deriving DecidableEq

/-- Result of one executor run on the current block, as observed by the
handler loop: success with output data, logs and truncation flag; an error
with the message and the logs the executor captured; or a Go panic carrying
the panic value rendered as a string. -/
inductive RunResult where
  | ok (data : Option String) (logs : List String) (logsTruncated : Bool)
  | err (msg : String) (logs : List String) (logsTruncated : Bool)
  | panics (msg : String)
deriving DecidableEq

/-- Behaviour of one module executor on the block under consideration. -/
structure ExecBehavior where
  name : String
  run : RunResult
deriving DecidableEq

/-- Leaf store marked for partial processing in orchestrated execution:
its name and its StoreInitialBlock. -/
structure LeafStore where
  name : String
  storeInitialBlock : Nat
deriving DecidableEq

/-- Pipeline state as the block handler sees it, together with the outcomes
of the fallible external calls the handler makes (each such oracle field is
none on success and some msg on failure). -/
structure Pipeline where
  vmType : String
  blockType : String
  requestedStartBlockNum : Nat
  storesSaveInterval : Nat
  isBackprocessing : Bool
  stopBlockNum : Nat
  leafStores : List LeafStore
  preBlockHooks : List (Option String)
  postJobHooks : List (Option String)
  cacheUpdateResult : Option String
  snapshotResult : Option String
  cacheSaveResult : Option String
deriving DecidableEq

/-- Block fed to the handler: number, id, timestamp, the outcome of
block.Payload.Get, and the cursor (already rendered with ToOpaque) and step
taken from the handler object. -/
structure BlockInput where
  num : Nat
  id : String
  timestamp : Nat
  payloadErr : Option String
  cursor : String
  step : StepType
deriving DecidableEq

/-- Go error returned by the handler: either io.EOF or an error message. -/
inductive GoErr where
  | eof
  | msg (s : String)
deriving DecidableEq

/-- Return value of the handler: nil, or a non-nil Go error. -/
inductive Outcome where
  | ok
  | fail (e : GoErr)
deriving DecidableEq

/-- Result of the handler body before the deferred recover/post-job block:
either it ran to a return (with the trace of events it performed and the
returned value), or it panicked partway with the given panic value. -/
inductive BodyResult where
  | done (trace : List Event) (out : Outcome)
  | panicked (trace : List Event) (msg : String)
deriving DecidableEq

def BodyResult.prepend (t : List Event) : BodyResult → BodyResult
  | .done t' o => .done (t ++ t') o
  | .panicked t' m => .panicked (t ++ t') m

def BodyResult.trace : BodyResult → List Event
  | .done t _ => t
  | .panicked t _ => t

/-- Result of the executor loop: all executors ran (with the accumulated
moduleOutputs), or one failed (after the failure progress was sent), or one
panicked. -/
inductive LoopResult where
  | success (trace : List Event) (moduleOutputs : List ModuleOutput)
  | failed (trace : List Event) (errMsg : String)
  | panicked (trace : List Event) (msg : String)
deriving DecidableEq

def LoopResult.prepend (t : List Event) : LoopResult → LoopResult
  | .success t' outs => .success (t ++ t') outs
  | .failed t' m => .failed (t ++ t') m
  | .panicked t' m => .panicked (t ++ t') m

def LoopResult.trace : LoopResult → List Event
  | .success t _ => t
  | .failed t _ => t
  | .panicked t _ => t

/-- returnFailureProgress: one ModuleProgress per previously successful
module output, marked Failed with its logs and truncation flag but no
reason, followed by the failing executor marked Failed with the error
message as reason plus its logs. -/
def returnFailureProgress (moduleOutputs : List ModuleOutput)
    (failedName : String) (errMsg : String) (logs : List String)
    (logsTruncated : Bool) : List ModuleProgress :=
  moduleOutputs.map (fun mo =>
    { name := mo.name
      progress := ProgressType.failed none mo.logs mo.logsTruncated }) ++
  [{ name := failedName
     progress := ProgressType.failed (some errMsg) logs logsTruncated }]

/-- returnOutputs: when the accumulated moduleOutputs list is nonempty, send
one BlockScopedData carrying it with the clock, step and cursor; when the
pipeline is backprocessing, additionally send one ModulesProgress carrying a
ProcessedRanges entry per leaf store covering
[storeInitialBlock, clock.number]. -/
def returnOutputs (p : Pipeline) (clock : Clock) (step : StepType)
    (cursor : String) (moduleOutputs : List ModuleOutput) : List Message :=
  (if moduleOutputs.length > 0 then
    [Message.blockScopedData moduleOutputs clock step cursor]
  else []) ++
  (if p.isBackprocessing then
    [Message.modulesProgress (p.leafStores.map (fun store =>
      { name := store.name
        progress := ProgressType.processedRanges
          [{ startBlock := store.storeInitialBlock
             endBlock := clock.number }] }))]
  else [])

/-- Pre-block hook loop: each hook that runs contributes one event; the
first hook error aborts the loop and is returned. -/
def runPreBlockHooks : List (Option String) → List Event × Option String
  | [] => ([], none)
  | hook :: rest =>
    match hook with
    | some e => ([Event.preBlockHook], some e)
    | none =>
      let r := runPreBlockHooks rest
      (Event.preBlockHook :: r.1, r.2)

/-- Executor loop of the handler: runs each executor in order; on success
appends its ModuleOutput (name, data, logs, truncation flag); on error sends
the failure progress built from the outputs accumulated so far and returns
the error; a panic escapes the loop. -/
def execLoop : List ModuleOutput → List ExecBehavior → LoopResult
  | moduleOutputs, [] => .success [] moduleOutputs
  | moduleOutputs, e :: rest =>
    match e.run with
    | .ok data logs logsTruncated =>
      (execLoop
        (moduleOutputs ++
          [{ name := e.name, data := data, logs := logs
             logsTruncated := logsTruncated }]) rest).prepend
        [Event.executeModule e.name]
    | .err msg logs logsTruncated =>
      .failed
        [Event.executeModule e.name,
         Event.send (Message.modulesProgress
           (returnFailureProgress moduleOutputs e.name msg logs
             logsTruncated))] msg
    | .panics msg => .panicked [Event.executeModule e.name] msg

/-- Stage of the handler from the executor loop on: run the executors, then,
when clock.Number is at or above requestedStartBlockNum, call returnOutputs;
finally flush every store and return nil. -/
def execStage (p : Pipeline) (execs : List ExecBehavior) (b : BlockInput) :
    BodyResult :=
  match execLoop [] execs with
  | .panicked t m => .panicked t m
  | .failed t m => .done t (.fail (.msg m))
  | .success t outs =>
    let sends :=
      if b.num ≥ p.requestedStartBlockNum then
        (returnOutputs p { number := b.num, id := b.id, timestamp := b.timestamp }
          b.step b.cursor outs).map Event.send
      else []
    .done (t ++ sends ++ [Event.flushStores]) .ok

/-- assignSource: on the wasm vm type, read the block payload (an error is
wrapped and returned); any other vm type panics. -/
def sourceStage (p : Pipeline) (execs : List ExecBehavior) (b : BlockInput) :
    BodyResult :=
  if p.vmType = "wasm/rust-v1" then
    match b.payloadErr with
    | some e =>
      .done []
        (.fail (.msg ("setting up sources: getting block " ++ toString b.num
          ++ " " ++ b.id ++ ": " ++ e)))
    | none => execStage p execs b
  else .panicked [] ("unsupported vmType " ++ p.vmType)

/-- Stop-block stage: when clock.Number ≥ StopBlockNum and StopBlockNum ≠ 0,
a backprocessing pipeline first saves the output caches, then the handler
returns io.EOF; otherwise processing continues. -/
def stopStage (p : Pipeline) (execs : List ExecBehavior) (b : BlockInput) :
    BodyResult :=
  if b.num ≥ p.stopBlockNum ∧ p.stopBlockNum ≠ 0 then
    if p.isBackprocessing then
      match p.cacheSaveResult with
      | some _ => .done [Event.saveOutputCaches] (.fail (.msg "saving partial caches"))
      | none => .done [Event.saveOutputCaches] (.fail .eof)
    else .done [] (.fail .eof)
  else sourceStage p execs b

/-- Snapshot condition of the handler: not the first request block, and
either the save interval boundary is reached or the temporary-store case of
a sub-request at its stop block holds. -/
def snapCond (p : Pipeline) (b : BlockInput) : Bool :=
  let isFirstRequestBlock : Bool := p.requestedStartBlockNum == b.num
  let intervalReached : Bool :=
    p.storesSaveInterval != 0 && b.num % p.storesSaveInterval == 0
  let isTemporaryStore : Bool :=
    p.isBackprocessing && b.num == p.stopBlockNum && p.stopBlockNum != 0
  !isFirstRequestBlock && (intervalReached || isTemporaryStore)

/-- Snapshot stage: mirrors the isFirstRequestBlock / intervalReached /
isTemporaryStore condition of the handler and, when it holds, calls
saveStoresSnapshots with clock.Number before the stop-block check. -/
def snapshotStage (p : Pipeline) (execs : List ExecBehavior) (b : BlockInput) :
    BodyResult :=
  if snapCond p b then
    match p.snapshotResult with
    | some e =>
      .done [Event.saveStoresSnapshots b.num] (.fail (.msg ("saving stores: " ++ e)))
    | none => (stopStage p execs b).prepend [Event.saveStoresSnapshots b.num]
  else stopStage p execs b

/-- Body of the block handler, before the deferred recover/post-job block:
set the clock, update the output cache, run the pre-block hooks, reset the
per-block module outputs, then the snapshot, stop-block, source and executor
stages. -/
def handlerBody (p : Pipeline) (execs : List ExecBehavior) (b : BlockInput) :
    BodyResult :=
  match p.cacheUpdateResult with
  | some e =>
    .done [Event.cacheUpdate]
      (.fail (.msg ("updating module output cache: " ++ e)))
  | none =>
    let hooks := runPreBlockHooks p.preBlockHooks
    match hooks.2 with
    | some e =>
      .done (Event.cacheUpdate :: hooks.1)
        (.fail (.msg ("pre block hook: " ++ e)))
    | none => (snapshotStage p execs b).prepend (Event.cacheUpdate :: hooks.1)

/-- Block handler returned by Pipeline.HandlerFactory: the body wrapped in
the deferred block that converts a panic into an error naming the block
number and, whenever the returned error is non-nil, runs every post-job
hook. -/
def blockHandler (p : Pipeline) (execs : List ExecBehavior) (b : BlockInput) :
    List Event × Outcome :=
  let r : List Event × Outcome :=
    match handlerBody p execs b with
    | .done t out => (t, out)
    | .panicked t m =>
      (t, .fail (.msg ("panic at block " ++ toString b.num ++ ": " ++ m)))
  match r.2 with
  | .ok => (r.1, .ok)
  | .fail e =>
    (r.1 ++ p.postJobHooks.map (fun _ => Event.postJobHook), .fail e)

/-- Recognizer of a sent BlockScopedData event. -/
def isBlockScopedDataEvent : Event → Bool
  | .send (.blockScopedData _ _ _ _) => true
  | _ => false

/-- Recognizer of a saveStoresSnapshots event. -/
def isSnapshotEvent : Event → Bool
  | .saveStoresSnapshots _ => true
  | _ => false

/-- Recognizer of a module execution event. -/
def isExecuteEvent : Event → Bool
  | .executeModule _ => true
  | _ => false

def countBlockScopedData (t : List Event) : Nat :=
  t.countP isBlockScopedDataEvent

def countSnapshots (t : List Event) : Nat :=
  t.countP isSnapshotEvent

def countExecutions (t : List Event) : Nat :=
  t.countP isExecuteEvent

/-- Messages sent through respFunc during the handler invocation, in order. -/
def sentMessages (t : List Event) : List Message :=
  t.filterMap (fun e =>
    match e with
    | .send m => some m
    | _ => none)

/-
Request resolver (package pipeline: BuildRequestDetails, resolveStartBlockNum,
minOf).  The bstream cursor parser is an external collaborator and is passed
as a function; the recent-final-block head function is passed as its outcome
for the run under consideration.
-/

/-- Cursor of the external bstream library: a block reference and a step. -/
structure Cursor where
  blockNum : Nat
  id : String
  step : StepType
deriving DecidableEq

/-- Errors surfaced by the request resolver: a gRPC InvalidArgument status
error, or a plain error built with fmt.Errorf. -/
inductive RequestErr where
  | invalidArgument (msg : String)
  | other (msg : String)
deriving DecidableEq

/-- Request fields read by the resolver (pbsubstreams.Request, abridged). -/
structure Request where
  startBlockNum : Int
  stopBlockNum : Nat
  startCursor : String
  productionMode : Bool
  outputModules : List String

/-- resolveStartBlockNum: a negative start block is an InvalidArgument
error; with no cursor the start block is returned as a uint64; otherwise the
cursor is parsed (a parse failure is an InvalidArgument error) and the start
is cursor block + 1 for a step matching Irreversible or New, the cursor
block itself for a step matching Undo, and any other step is an error. -/
def resolveStartBlockNum (req : Request)
    (parseCursor : String → Except String Cursor) : Except RequestErr Nat :=
  if req.startBlockNum < 0 then
    .error (.invalidArgument "start block num must be positive")
  else if req.startCursor = "" then
    .ok req.startBlockNum.toNat
  else
    match parseCursor req.startCursor with
    | .error e => .error (.invalidArgument ("invalid start cursor: " ++ e))
    | .ok cursor =>
      if stepMatches cursor.step stepIrreversible then .ok (cursor.blockNum + 1)
      else if stepMatches cursor.step stepNew then .ok (cursor.blockNum + 1)
      else if stepMatches cursor.step stepUndo then .ok cursor.blockNum
      else .error (.other "invalid start cursor step")

/-- RequestDetails produced by BuildRequestDetails. -/
structure RequestDetails where
  request : Request
  isSubRequest : Bool
  stopBlockNum : Nat
  requestStartBlockNum : Nat
  linearHandoffBlockNum : Nat
  isOutputModule : String → Bool

def minOf (a b : Nat) : Nat :=
  if a < b then a else b

def mkRequestDetails (request : Request) (isSubRequest : Bool)
    (startNum handoff : Nat) : RequestDetails :=
  { request := request
    isSubRequest := isSubRequest
    stopBlockNum := request.stopBlockNum
    requestStartBlockNum := startNum
    linearHandoffBlockNum := handoff
    isOutputModule := fun n => request.outputModules.contains n }

/-- BuildRequestDetails: resolve the start block, then compute the linear
handoff block.  In production mode: with the recent final block unavailable,
fail when StopBlockNum is 0 and otherwise use StopBlockNum; with it
available, use it alone when StopBlockNum is 0 and min(StopBlockNum, head)
otherwise.  In development mode: the resolved start block when the head is
unavailable, min(start, head) otherwise. -/
def BuildRequestDetails (request : Request) (isSubRequest : Bool)
    (getRecentFinalBlock : Except String Nat)
    (parseCursor : String → Except String Cursor) :
    Except RequestErr RequestDetails :=
  match resolveStartBlockNum request parseCursor with
  | .error e => .error e
  | .ok startNum =>
    if request.productionMode then
      match getRecentFinalBlock with
      | .error e =>
        if request.stopBlockNum = 0 then
          .error (.other ("cannot determine a recent finalized block: " ++ e))
        else
          .ok (mkRequestDetails request isSubRequest startNum request.stopBlockNum)
      | .ok maxHandoff =>
        if request.stopBlockNum = 0 then
          .ok (mkRequestDetails request isSubRequest startNum maxHandoff)
        else
          .ok (mkRequestDetails request isSubRequest startNum
            (minOf request.stopBlockNum maxHandoff))
    else
      match getRecentFinalBlock with
      | .error _ => .ok (mkRequestDetails request isSubRequest startNum startNum)
      | .ok maxHandoff =>
        .ok (mkRequestDetails request isSubRequest startNum
          (minOf startNum maxHandoff))

/-- Linear handoff block of a resolved request, as an Except value. -/
def linearHandoffResult (request : Request) (isSubRequest : Bool)
    (getRecentFinalBlock : Except String Nat)
    (parseCursor : String → Except String Cursor) : Except RequestErr Nat :=
  (BuildRequestDetails request isSubRequest getRecentFinalBlock
    parseCursor).map (fun d => d.linearHandoffBlockNum)

/-
Service options (package service, options.go).  Tier1Service and
Tier2Service are declared outside the sources at hand; they are modelled
with exactly the fields the options touch.
-/

/-- Meter of the dmetering library: the freshly constructed default bytes
meter, or any other non-nil meter supplied by the caller. -/
inductive Meter where
  | defaultBytesMeter
  | custom (id : Nat)
deriving DecidableEq

/-- Runtime configuration fields touched by the service options. -/
structure RuntimeConfig where
  withRequestStats : Bool
  maxWasmFuel : Nat
  moduleExecutionTracing : Bool
deriving DecidableEq

/-- Tier1Service fields touched by the options in options.go.  The
bytesMeter field holds a Go interface value, hence Option Meter with none
standing for nil. -/
structure Tier1Service where
  bytesMeter : Option Meter
  wasmExtensions : List Nat
  pipelineOptions : List Nat
  runtimeConfig : RuntimeConfig
deriving DecidableEq

/-- Tier2Service fields touched by the options in options.go. -/
structure Tier2Service where
  bytesMeter : Option Meter
  wasmExtensions : List Nat
  pipelineOptions : List Nat
  runtimeConfig : RuntimeConfig
deriving DecidableEq

/-- anyTierService value an Option is applied to: one of the two tiers, or
any other value (the type switch then does nothing). -/
inductive AnyTierService where
  | tier1 (s : Tier1Service)
  | tier2 (s : Tier2Service)
  | otherService
deriving DecidableEq

/-- dmetering.NewBytesMeter as called by the nil guard. -/
def newBytesMeter : Meter := Meter.defaultBytesMeter

/-- WithBytesMeter: a nil meter is replaced by a freshly constructed default
bytes meter before the closure is built; the closure assigns the meter to
the bytesMeter field of either tier service. -/
def WithBytesMeter (bm : Option Meter) : AnyTierService → AnyTierService :=
  let bm := match bm with
    | none => some newBytesMeter
    | some m => some m
  fun a =>
    match a with
    | .tier1 s => .tier1 { s with bytesMeter := bm }
    | .tier2 s => .tier2 { s with bytesMeter := bm }
    | .otherService => .otherService

/-- bytesMeter field of a service, when the value is one of the two tiers. -/
def serviceBytesMeter : AnyTierService → Option Meter
  | .tier1 s => s.bytesMeter
  | .tier2 s => s.bytesMeter
  | .otherService => none

/-
Environment-variable flag binding (package cli, recurseCommands).
-/

/-- pflag.Flag fields touched by recurseCommands. -/
structure Flag where
  name : String
  value : String
  changed : Bool
  usage : String
deriving DecidableEq

/-- cobra.Command fields touched by recurseCommands: the name, the
persistent flags, the command flags and the sub-commands. -/
inductive Command where
  | mk (name : String) (persistentFlags : List Flag) (cmdFlags : List Flag)
      (subCommands : List Command)

def Command.name : Command → String
  | .mk n _ _ _ => n

def Command.persistentFlags : Command → List Flag
  | .mk _ p _ _ => p

def Command.cmdFlags : Command → List Flag
  | .mk _ _ f _ => f

def Command.subCommands : Command → List Command
  | .mk _ _ _ s => s

/-- Environment-variable name fragment of a flag name: upper-cased with
dashes replaced by underscores. -/
def envFlagName (f : Flag) : String :=
  (f.name.toUpper).replace "-" "_"

/-- Segment fragment of the variable name: the upper-cased underscore join
of the segments followed by an underscore, or empty with no segments. -/
def segmentPart (segments : List String) : String :=
  if segments.length > 0 then
    (String.intercalate "_" segments).toUpper ++ "_"
  else ""

def persistentVarName (pfx : String) (segments : List String) (f : Flag) :
    String :=
  pfx ++ "_" ++ segmentPart segments ++ "GLOBAL_" ++ envFlagName f

def cmdVarName (pfx : String) (segments : List String) (f : Flag) : String :=
  pfx ++ "_" ++ segmentPart segments ++ "CMD_" ++ envFlagName f

/-- Visit of one flag: when the environment variable is set (non-empty),
the usage string is annotated, and the value is assigned only when the flag
was not already changed on the command line. -/
def bindFlag (env : String → String) (varName : String) (f : Flag) : Flag :=
  if env varName ≠ "" then
    let f' := { f with usage := f.usage ++ " [LOADED FROM ENV]" }
    if !f'.changed then { f' with value := env varName } else f'
  else f

mutual

/-- recurseCommands: bind the persistent flags under the GLOBAL fragment and
the command flags under the CMD fragment, then recurse into each
sub-command with its name appended to the segments. -/
def recurseCommands (env : String → String) (pfx : String) :
    Command → List String → Command
  | .mk name pFlags cFlags subs, segments =>
    .mk name
      (pFlags.map (fun f => bindFlag env (persistentVarName pfx segments f) f))
      (cFlags.map (fun f => bindFlag env (cmdVarName pfx segments f) f))
      (recurseCommandList env pfx subs segments)

def recurseCommandList (env : String → String) (pfx : String) :
    List Command → List String → List Command
  | [], _ => []
  | c :: cs, segments =>
    recurseCommands env pfx c (segments ++ [c.name]) ::
      recurseCommandList env pfx cs segments

end

/-- autoBind as called from the package init hook: recurse from the root
with no segments. -/
def autoBind (env : String → String) (root : Command) (pfx : String) :
    Command :=
  recurseCommands env pfx root []

mutual

/-- Flags of a command tree, in visit order. -/
def allFlags : Command → List Flag
  | .mk _ pFlags cFlags subs => pFlags ++ cFlags ++ allFlagsList subs

def allFlagsList : List Command → List Flag
  | [] => []
  | c :: cs => allFlags c ++ allFlagsList cs

end

/-- Frame property of one flag visit: a flag already changed on the command
line keeps its value.  The converse reading, that a flag whose value was
assigned must have been unchanged, is the contrapositive of the same
statement. -/
def flagValuePreserved (orig new : Flag) : Prop :=
  orig.changed = true → new.value = orig.value

/-
Analysis helpers and concrete inputs used by the theorems below.
-/

/-- Specification of an executor that succeeds on the current block. -/
structure OkSpec where
  name : String
  data : Option String
  logs : List String
  logsTruncated : Bool
deriving DecidableEq

def mkOkExec (o : OkSpec) : ExecBehavior :=
  { name := o.name, run := .ok o.data o.logs o.logsTruncated }

def okOutput (o : OkSpec) : ModuleOutput :=
  { name := o.name, data := o.data, logs := o.logs
    logsTruncated := o.logsTruncated }

/-- Error value the wrapped handler returns for a given body result. -/
def bodyOutcome (r : BodyResult) (blockNum : Nat) : Outcome :=
  match r with
  | .done _ out => out
  | .panicked _ m =>
    .fail (.msg ("panic at block " ++ toString blockNum ++ ": " ++ m))

/-- Pipeline at start block 15 with no save interval, used to evaluate the
emission bound at a block below the start block. -/
def pW1 : Pipeline :=
  { vmType := "wasm/rust-v1", blockType := "test.Block"
    requestedStartBlockNum := 15, storesSaveInterval := 0
    isBackprocessing := false, stopBlockNum := 0, leafStores := []
    preBlockHooks := [], postJobHooks := []
    cacheUpdateResult := none, snapshotResult := none, cacheSaveResult := none }

def bW1 : BlockInput :=
  { num := 10, id := "a", timestamp := 0, payloadErr := none
    cursor := "c", step := stepNew }

/-- Pipeline at start block 15 with save interval 10: block 10 sits below
the start block yet on a save boundary. -/
def pC2 : Pipeline :=
  { vmType := "wasm/rust-v1", blockType := "test.Block"
    requestedStartBlockNum := 15, storesSaveInterval := 10
    isBackprocessing := false, stopBlockNum := 0, leafStores := []
    preBlockHooks := [], postJobHooks := []
    cacheUpdateResult := none, snapshotResult := none, cacheSaveResult := none }

def bC2 : BlockInput :=
  { num := 10, id := "a", timestamp := 0, payloadErr := none
    cursor := "c", step := stepNew }

def pW2 : Pipeline :=
  { vmType := "wasm/rust-v1", blockType := "test.Block"
    requestedStartBlockNum := 5, storesSaveInterval := 10
    isBackprocessing := false, stopBlockNum := 0, leafStores := []
    preBlockHooks := [], postJobHooks := []
    cacheUpdateResult := none, snapshotResult := none, cacheSaveResult := none }

def bW2 : BlockInput :=
  { num := 10, id := "a", timestamp := 0, payloadErr := none
    cursor := "c", step := stepNew }

def reqW3 : Request :=
  { startBlockNum := 50, stopBlockNum := 0, startCursor := "cur"
    productionMode := false, outputModules := ["M"] }

def parseW3 : String → Except String Cursor := fun s =>
  if s = "cur" then .ok { blockNum := 49, id := "X", step := stepIrreversible }
  else .error "bad cursor"

def reqW4 : Request :=
  { startBlockNum := 100, stopBlockNum := 0, startCursor := ""
    productionMode := false, outputModules := ["M"] }

def parseW4 : String → Except String Cursor := fun _ => .error "unused"

/-- Pipeline processing its first request block, used to exercise the
failure-progress path. -/
def pW5 : Pipeline :=
  { vmType := "wasm/rust-v1", blockType := "test.Block"
    requestedStartBlockNum := 5, storesSaveInterval := 0
    isBackprocessing := false, stopBlockNum := 0, leafStores := []
    preBlockHooks := [], postJobHooks := []
    cacheUpdateResult := none, snapshotResult := none, cacheSaveResult := none }

def bW5 : BlockInput :=
  { num := 5, id := "a", timestamp := 0, payloadErr := none
    cursor := "c", step := stepNew }

def oksW5 : List OkSpec := [{ name := "A", data := some "d", logs := ["la"]
                              logsTruncated := false }]

/-- Sub-request pipeline whose single output module is the store S, over the
range [100, 200) with save interval 100. -/
def p6 : Pipeline :=
  { vmType := "wasm/rust-v1", blockType := "test.Block"
    requestedStartBlockNum := 100, storesSaveInterval := 100
    isBackprocessing := true, stopBlockNum := 200
    leafStores := [{ name := "S", storeInitialBlock := 100 }]
    preBlockHooks := [], postJobHooks := []
    cacheUpdateResult := none, snapshotResult := none, cacheSaveResult := none }

def b6 : BlockInput :=
  { num := 100, id := "a", timestamp := 0, payloadErr := none
    cursor := "c", step := stepNew }

/-- Behaviour of the single store executor S on block 100: it succeeds and,
being a store kind, carries no output data. -/
def execs6 : List ExecBehavior := [{ name := "S", run := .ok none [] false }]

def oksW6 : List OkSpec := [{ name := "S", data := none, logs := []
                              logsTruncated := false }]

/-- Pipeline with stop block 100 in a sub-request, fed block 100. -/
def pW7 : Pipeline :=
  { vmType := "wasm/rust-v1", blockType := "test.Block"
    requestedStartBlockNum := 0, storesSaveInterval := 0
    isBackprocessing := true, stopBlockNum := 100
    leafStores := [{ name := "S", storeInitialBlock := 0 }]
    preBlockHooks := [], postJobHooks := []
    cacheUpdateResult := none, snapshotResult := none, cacheSaveResult := none }

def bW7 : BlockInput :=
  { num := 100, id := "a", timestamp := 0, payloadErr := none
    cursor := "c", step := stepNew }

def execsW7 : List ExecBehavior := [{ name := "S", run := .ok none [] false }]

/-- Pipeline with two post-job hooks, fed block 7 on which the single
executor panics. -/
def pW8 : Pipeline :=
  { vmType := "wasm/rust-v1", blockType := "test.Block"
    requestedStartBlockNum := 7, storesSaveInterval := 0
    isBackprocessing := false, stopBlockNum := 0, leafStores := []
    preBlockHooks := [], postJobHooks := [none, none]
    cacheUpdateResult := none, snapshotResult := none, cacheSaveResult := none }

def bW8 : BlockInput :=
  { num := 7, id := "a", timestamp := 0, payloadErr := none
    cursor := "c", step := stepNew }

def execsW8 : List ExecBehavior := [{ name := "X", run := .panics "boom" }]

def sW9 : Tier1Service :=
  { bytesMeter := none, wasmExtensions := [], pipelineOptions := []
    runtimeConfig := { withRequestStats := false, maxWasmFuel := 0
                       moduleExecutionTracing := false } }

def sW9b : Tier2Service :=
  { bytesMeter := none, wasmExtensions := [], pipelineOptions := []
    runtimeConfig := { withRequestStats := false, maxWasmFuel := 0
                       moduleExecutionTracing := false } }

def envW : String → String := fun v =>
  if v = "SUBSTREAMS_GLOBAL_LOG_LEVEL" then "debug" else ""

def cmdW : Command :=
  .mk "substreams"
    [{ name := "log-level", value := "info", changed := true, usage := "u" }]
    [{ name := "out", value := "", changed := false, usage := "v" }]
    []

/-
Helper lemmas about the handler model.
-/

theorem loopTrace_prepend (t : List Event) (r : LoopResult) :
    (r.prepend t).trace = t ++ r.trace := by
  cases r <;> rfl

theorem bodyTrace_prepend (t : List Event) (r : BodyResult) :
    (r.prepend t).trace = t ++ r.trace := by
  cases r <;> rfl

theorem bodyOutcome_prepend (t : List Event) (r : BodyResult) (n : Nat) :
    bodyOutcome (r.prepend t) n = bodyOutcome r n := by
  cases r <;> rfl

theorem mem_runPreBlockHooks :
    ∀ (hooks : List (Option String)) (e : Event),
      e ∈ (runPreBlockHooks hooks).1 → e = Event.preBlockHook
  | [], e, h => by simp [runPreBlockHooks] at h
  | some s :: rest, e, h => by
    simp only [runPreBlockHooks, List.mem_singleton] at h
    exact h
  | none :: rest, e, h => by
    simp only [runPreBlockHooks, List.mem_cons] at h
    rcases h with h | h
    · exact h
    · exact mem_runPreBlockHooks rest e h

theorem runPreBlockHooks_all_ok :
    ∀ (hooks : List (Option String)), (∀ h ∈ hooks, h = none) →
      runPreBlockHooks hooks = (hooks.map (fun _ => Event.preBlockHook), none)
  | [], _ => rfl
  | hook :: rest, h => by
    have h0 : hook = none := h hook (by simp)
    have ih := runPreBlockHooks_all_ok rest (fun x hx => h x (by simp [hx]))
    simp [runPreBlockHooks, h0, ih]

theorem mem_execLoop_trace :
    ∀ (execs : List ExecBehavior) (acc : List ModuleOutput) (e : Event),
      e ∈ (execLoop acc execs).trace →
      (∃ n, e = Event.executeModule n) ∨
      (∃ ms, e = Event.send (Message.modulesProgress ms))
  | [], acc, e, h => by simp [execLoop, LoopResult.trace] at h
  | x :: rest, acc, e, h => by
    cases hr : x.run with
    | ok data logs tr =>
      simp only [execLoop, hr, loopTrace_prepend, List.mem_append,
        List.mem_singleton] at h
      rcases h with h | h
      · exact Or.inl ⟨x.name, h⟩
      · exact mem_execLoop_trace rest _ e h
    | err m logs tr =>
      simp only [execLoop, hr, LoopResult.trace, List.mem_cons,
        List.mem_singleton, List.not_mem_nil, or_false] at h
      rcases h with h | h
      · exact Or.inl ⟨x.name, h⟩
      · exact Or.inr ⟨_, h⟩
    | panics m =>
      simp only [execLoop, hr, LoopResult.trace, List.mem_singleton] at h
      exact Or.inl ⟨x.name, h⟩

theorem countBSD_execLoop (execs : List ExecBehavior) (acc : List ModuleOutput) :
    countBlockScopedData (execLoop acc execs).trace = 0 := by
  simp only [countBlockScopedData]
  apply List.countP_eq_zero.mpr
  intro e he
  rcases mem_execLoop_trace execs acc e he with ⟨n, rfl⟩ | ⟨ms, rfl⟩ <;>
    simp [isBlockScopedDataEvent]

theorem countBSD_returnOutputs (p : Pipeline) (clock : Clock) (step : StepType)
    (cursor : String) (outs : List ModuleOutput) :
    List.countP isBlockScopedDataEvent
      ((returnOutputs p clock step cursor outs).map Event.send) =
      if outs.length > 0 then 1 else 0 := by
  unfold returnOutputs
  by_cases hA : outs.length > 0 <;> cases hB : p.isBackprocessing <;>
    simp [hA, hB, List.countP_cons, isBlockScopedDataEvent]

theorem execStage_trace (p : Pipeline) (execs : List ExecBehavior)
    (b : BlockInput) :
    (execStage p execs b).trace =
      (execLoop [] execs).trace ++
      (match execLoop [] execs with
       | .success _ outs =>
         (if b.num ≥ p.requestedStartBlockNum then
           (returnOutputs p { number := b.num, id := b.id, timestamp := b.timestamp }
             b.step b.cursor outs).map Event.send
          else []) ++ [Event.flushStores]
       | _ => []) := by
  cases hl : execLoop [] execs <;>
    simp [execStage, hl, BodyResult.trace, LoopResult.trace]

theorem countBSD_flush : List.countP isBlockScopedDataEvent [Event.flushStores] = 0 := by
  simp [isBlockScopedDataEvent]

theorem countBSD_execStage_le (p : Pipeline) (execs : List ExecBehavior)
    (b : BlockInput) :
    countBlockScopedData (execStage p execs b).trace ≤ 1 := by
  rw [execStage_trace]
  simp only [countBlockScopedData]
  cases hl : execLoop [] execs with
  | success t outs =>
    have h0 := countBSD_execLoop execs []
    rw [hl] at h0
    simp only [countBlockScopedData, LoopResult.trace] at h0
    have h1 : List.countP isBlockScopedDataEvent
        (if b.num ≥ p.requestedStartBlockNum then
          (returnOutputs p { number := b.num, id := b.id, timestamp := b.timestamp }
            b.step b.cursor outs).map Event.send
         else []) ≤ 1 := by
      split
      · rw [countBSD_returnOutputs]
        split <;> simp
      · simp
    simp only [List.countP_append, h0, countBSD_flush, LoopResult.trace]
    omega
  | failed t m =>
    have h0 := countBSD_execLoop execs []
    rw [hl] at h0
    simp only [countBlockScopedData, LoopResult.trace] at h0
    simp [List.countP_append, h0, LoopResult.trace]
  | panicked t m =>
    have h0 := countBSD_execLoop execs []
    rw [hl] at h0
    simp only [countBlockScopedData, LoopResult.trace] at h0
    simp [List.countP_append, h0, LoopResult.trace]

theorem countBSD_execStage_lt (p : Pipeline) (execs : List ExecBehavior)
    (b : BlockInput) (h : b.num < p.requestedStartBlockNum) :
    countBlockScopedData (execStage p execs b).trace = 0 := by
  have hge : ¬ b.num ≥ p.requestedStartBlockNum := by omega
  rw [execStage_trace]
  simp only [countBlockScopedData]
  cases hl : execLoop [] execs with
  | success t outs =>
    have h0 := countBSD_execLoop execs []
    rw [hl] at h0
    simp only [countBlockScopedData, LoopResult.trace] at h0
    simp [List.countP_append, h0, hge, LoopResult.trace, isBlockScopedDataEvent]
  | failed t m =>
    have h0 := countBSD_execLoop execs []
    rw [hl] at h0
    simp only [countBlockScopedData, LoopResult.trace] at h0
    simp [List.countP_append, h0, LoopResult.trace]
  | panicked t m =>
    have h0 := countBSD_execLoop execs []
    rw [hl] at h0
    simp only [countBlockScopedData, LoopResult.trace] at h0
    simp [List.countP_append, h0, LoopResult.trace]

theorem countBSD_sourceStage_le (p : Pipeline) (execs : List ExecBehavior)
    (b : BlockInput) :
    countBlockScopedData (sourceStage p execs b).trace ≤ 1 := by
  unfold sourceStage
  split
  · cases hp : b.payloadErr with
    | some e => simp [BodyResult.trace, countBlockScopedData]
    | none => exact countBSD_execStage_le p execs b
  · simp [BodyResult.trace, countBlockScopedData]

theorem countBSD_sourceStage_lt (p : Pipeline) (execs : List ExecBehavior)
    (b : BlockInput) (h : b.num < p.requestedStartBlockNum) :
    countBlockScopedData (sourceStage p execs b).trace = 0 := by
  unfold sourceStage
  split
  · cases hp : b.payloadErr with
    | some e => simp [BodyResult.trace, countBlockScopedData]
    | none => exact countBSD_execStage_lt p execs b h
  · simp [BodyResult.trace, countBlockScopedData]

theorem countBSD_stopStage_le (p : Pipeline) (execs : List ExecBehavior)
    (b : BlockInput) :
    countBlockScopedData (stopStage p execs b).trace ≤ 1 := by
  unfold stopStage
  split
  · split
    · cases hc : p.cacheSaveResult <;>
        simp [BodyResult.trace, countBlockScopedData, List.countP_cons,
          isBlockScopedDataEvent]
    · simp [BodyResult.trace, countBlockScopedData]
  · exact countBSD_sourceStage_le p execs b

theorem countBSD_stopStage_lt (p : Pipeline) (execs : List ExecBehavior)
    (b : BlockInput) (h : b.num < p.requestedStartBlockNum) :
    countBlockScopedData (stopStage p execs b).trace = 0 := by
  unfold stopStage
  split
  · split
    · cases hc : p.cacheSaveResult <;>
        simp [BodyResult.trace, countBlockScopedData, List.countP_cons,
          isBlockScopedDataEvent]
    · simp [BodyResult.trace, countBlockScopedData]
  · exact countBSD_sourceStage_lt p execs b h

theorem countBSD_snapshotStage_le (p : Pipeline) (execs : List ExecBehavior)
    (b : BlockInput) :
    countBlockScopedData (snapshotStage p execs b).trace ≤ 1 := by
  unfold snapshotStage
  split
  · cases hs : p.snapshotResult with
    | some e =>
      simp [BodyResult.trace, countBlockScopedData, List.countP_cons,
        isBlockScopedDataEvent]
    | none =>
      rw [bodyTrace_prepend]
      have h2 := countBSD_stopStage_le p execs b
      simp only [countBlockScopedData] at h2 ⊢
      rw [List.countP_append]
      have h1 : List.countP isBlockScopedDataEvent
          [Event.saveStoresSnapshots b.num] = 0 := by
        simp [isBlockScopedDataEvent]
      omega
  · exact countBSD_stopStage_le p execs b

theorem countBSD_snapshotStage_lt (p : Pipeline) (execs : List ExecBehavior)
    (b : BlockInput) (h : b.num < p.requestedStartBlockNum) :
    countBlockScopedData (snapshotStage p execs b).trace = 0 := by
  unfold snapshotStage
  split
  · cases hs : p.snapshotResult with
    | some e =>
      simp [BodyResult.trace, countBlockScopedData, List.countP_cons,
        isBlockScopedDataEvent]
    | none =>
      rw [bodyTrace_prepend]
      have h2 := countBSD_stopStage_lt p execs b h
      simp only [countBlockScopedData] at h2 ⊢
      rw [List.countP_append, h2]
      simp [isBlockScopedDataEvent]
  · exact countBSD_stopStage_lt p execs b h

theorem countBSD_hookEvents (hooks : List (Option String)) :
    List.countP isBlockScopedDataEvent (runPreBlockHooks hooks).1 = 0 := by
  apply List.countP_eq_zero.mpr
  intro e he
  rw [mem_runPreBlockHooks hooks e he]
  simp [isBlockScopedDataEvent]

theorem countBSD_handlerBody_le (p : Pipeline) (execs : List ExecBehavior)
    (b : BlockInput) :
    countBlockScopedData (handlerBody p execs b).trace ≤ 1 := by
  simp only [handlerBody]
  cases hc : p.cacheUpdateResult with
  | some e =>
    simp [BodyResult.trace, countBlockScopedData, List.countP_cons,
      isBlockScopedDataEvent]
  | none =>
    cases hh : (runPreBlockHooks p.preBlockHooks).2 with
    | some e =>
      have h1 := countBSD_hookEvents p.preBlockHooks
      simp [hh, BodyResult.trace, countBlockScopedData, List.countP_cons,
        isBlockScopedDataEvent, h1]
    | none =>
      have h1 := countBSD_hookEvents p.preBlockHooks
      have h2 := countBSD_snapshotStage_le p execs b
      simp only [countBlockScopedData] at h2 ⊢
      simp only [hh, bodyTrace_prepend]
      rw [List.countP_append, List.countP_cons, h1]
      simp only [isBlockScopedDataEvent, Bool.false_eq_true, if_false]
      omega

theorem countBSD_handlerBody_lt (p : Pipeline) (execs : List ExecBehavior)
    (b : BlockInput) (h : b.num < p.requestedStartBlockNum) :
    countBlockScopedData (handlerBody p execs b).trace = 0 := by
  simp only [handlerBody]
  cases hc : p.cacheUpdateResult with
  | some e =>
    simp [BodyResult.trace, countBlockScopedData, List.countP_cons,
      isBlockScopedDataEvent]
  | none =>
    cases hh : (runPreBlockHooks p.preBlockHooks).2 with
    | some e =>
      have h1 := countBSD_hookEvents p.preBlockHooks
      simp [hh, BodyResult.trace, countBlockScopedData, List.countP_cons,
        isBlockScopedDataEvent, h1]
    | none =>
      have h1 := countBSD_hookEvents p.preBlockHooks
      have h2 := countBSD_snapshotStage_lt p execs b h
      simp only [countBlockScopedData] at h2 ⊢
      simp only [hh, bodyTrace_prepend]
      rw [List.countP_append, List.countP_cons, h1, h2]
      simp [isBlockScopedDataEvent]

theorem blockHandler_trace (p : Pipeline) (execs : List ExecBehavior)
    (b : BlockInput) :
    (blockHandler p execs b).1 = (handlerBody p execs b).trace ∨
    (blockHandler p execs b).1 = (handlerBody p execs b).trace ++
      p.postJobHooks.map (fun _ => Event.postJobHook) := by
  unfold blockHandler
  cases hb : handlerBody p execs b with
  | done t out => cases out <;> simp [BodyResult.trace]
  | panicked t m => simp [BodyResult.trace]

theorem blockHandler_outcome (p : Pipeline) (execs : List ExecBehavior)
    (b : BlockInput) :
    (blockHandler p execs b).2 = bodyOutcome (handlerBody p execs b) b.num := by
  unfold blockHandler bodyOutcome
  cases hb : handlerBody p execs b with
  | done t out => cases out <;> simp
  | panicked t m => simp

theorem countBSD_postJobEvents (p : Pipeline) :
    List.countP isBlockScopedDataEvent
      (p.postJobHooks.map (fun _ => Event.postJobHook)) = 0 := by
  apply List.countP_eq_zero.mpr
  intro e he
  simp only [List.mem_map] at he
  obtain ⟨x, _, rfl⟩ := he
  simp [isBlockScopedDataEvent]

/-- C1: the block handler sends at most one BlockScopedData per processed
block, and sends none when the block number is below the requested start
block.  Each block of a stream is handed to the handler exactly once, so the
per-invocation bound is the per-block bound. -/
theorem claim_C1_blockScopedData_at_most_once (p : Pipeline)
    (execs : List ExecBehavior) (b : BlockInput) :
    countBlockScopedData (blockHandler p execs b).1 ≤ 1 ∧
    (b.num < p.requestedStartBlockNum →
      countBlockScopedData (blockHandler p execs b).1 = 0) := by
  constructor
  · rcases blockHandler_trace p execs b with h | h <;> rw [h]
    · exact countBSD_handlerBody_le p execs b
    · have h1 := countBSD_handlerBody_le p execs b
      have h2 := countBSD_postJobEvents p
      simp only [countBlockScopedData] at h1 ⊢
      rw [List.countP_append, h2]
      omega
  · intro hlt
    rcases blockHandler_trace p execs b with h | h <;> rw [h]
    · exact countBSD_handlerBody_lt p execs b hlt
    · have h1 := countBSD_handlerBody_lt p execs b hlt
      have h2 := countBSD_postJobEvents p
      simp only [countBlockScopedData] at h1 ⊢
      rw [List.countP_append, h2, h1]

/-- Witness for C1 at a concrete pipeline and a block below the start. -/
theorem claim_C1_witness :
    countBlockScopedData (blockHandler pW1 [] bW1).1 ≤ 1 ∧
    countBlockScopedData (blockHandler pW1 [] bW1).1 = 0 :=
  ⟨(claim_C1_blockScopedData_at_most_once pW1 [] bW1).1,
   (claim_C1_blockScopedData_at_most_once pW1 [] bW1).2 (by decide)⟩

theorem bodyPrepend_nil (r : BodyResult) : r.prepend [] = r := by
  cases r <;> simp [BodyResult.prepend]

theorem countP_map_const_zero {α : Type} (q : Event → Bool) (ev : Event)
    (hq : q ev = false) (l : List α) :
    List.countP q (l.map (fun _ => ev)) = 0 := by
  apply List.countP_eq_zero.mpr
  intro e he
  simp only [List.mem_map] at he
  obtain ⟨x, _, rfl⟩ := he
  simp [hq]

theorem countP_stopStage_zero (q : Event → Bool) (p : Pipeline)
    (execs : List ExecBehavior) (b : BlockInput)
    (hq1 : ∀ n, q (Event.executeModule n) = false)
    (hq2 : ∀ m, q (Event.send m) = false)
    (hq3 : q Event.flushStores = false)
    (hq4 : q Event.saveOutputCaches = false) :
    List.countP q (stopStage p execs b).trace = 0 := by
  unfold stopStage
  split
  · split
    · cases hcs : p.cacheSaveResult <;>
        simp [BodyResult.trace, List.countP_cons, hq4]
    · simp [BodyResult.trace]
  · unfold sourceStage
    split
    · cases hp : b.payloadErr with
      | some e => simp [BodyResult.trace]
      | none =>
        rw [execStage_trace, List.countP_append]
        have h0 : List.countP q (execLoop [] execs).trace = 0 := by
          apply List.countP_eq_zero.mpr
          intro e he
          rcases mem_execLoop_trace execs [] e he with ⟨n, rfl⟩ | ⟨ms, rfl⟩
          · simp [hq1]
          · simp [hq2]
        rw [h0]
        cases hl : execLoop [] execs with
        | success t outs =>
          simp only []
          rw [List.countP_append]
          have hsends : List.countP q
              (if b.num ≥ p.requestedStartBlockNum then
                (returnOutputs p
                  { number := b.num, id := b.id, timestamp := b.timestamp }
                  b.step b.cursor outs).map Event.send
               else []) = 0 := by
            split
            · apply List.countP_eq_zero.mpr
              intro e he
              simp only [List.mem_map] at he
              obtain ⟨m, _, rfl⟩ := he
              simp [hq2]
            · simp
          rw [hsends]
          simp [List.countP_cons, hq3]
        | failed t m => simp
        | panicked t m => simp
    · simp [BodyResult.trace]

theorem countSnap_snapshotStage (p : Pipeline) (execs : List ExecBehavior)
    (b : BlockInput) :
    List.countP isSnapshotEvent (snapshotStage p execs b).trace =
      if snapCond p b then 1 else 0 := by
  have hz := countP_stopStage_zero isSnapshotEvent p execs b
    (fun n => rfl) (fun m => rfl) rfl rfl
  unfold snapshotStage
  split
  · cases hs : p.snapshotResult with
    | some e => simp [BodyResult.trace, isSnapshotEvent]
    | none =>
      rw [bodyTrace_prepend, List.countP_append, hz]
      simp [isSnapshotEvent]
  · exact hz

theorem handlerBody_normal (p : Pipeline) (execs : List ExecBehavior)
    (b : BlockInput) (hc : p.cacheUpdateResult = none)
    (hh : ∀ x ∈ p.preBlockHooks, x = none) :
    handlerBody p execs b = (snapshotStage p execs b).prepend
      (Event.cacheUpdate :: p.preBlockHooks.map (fun _ => Event.preBlockHook)) := by
  have hr := runPreBlockHooks_all_ok p.preBlockHooks hh
  simp [handlerBody, hc, hr]

theorem countSnap_blockHandler (p : Pipeline) (execs : List ExecBehavior)
    (b : BlockInput) (hc : p.cacheUpdateResult = none)
    (hh : ∀ x ∈ p.preBlockHooks, x = none) :
    countSnapshots (blockHandler p execs b).1 =
      if snapCond p b then 1 else 0 := by
  have hbody : List.countP isSnapshotEvent (handlerBody p execs b).trace =
      if snapCond p b then 1 else 0 := by
    rw [handlerBody_normal p execs b hc hh, bodyTrace_prepend,
      List.countP_append, List.countP_cons,
      countP_map_const_zero isSnapshotEvent Event.preBlockHook rfl,
      countSnap_snapshotStage]
    simp [isSnapshotEvent]
  rcases blockHandler_trace p execs b with ht | ht <;>
    rw [countSnapshots, ht]
  · exact hbody
  · rw [List.countP_append, hbody,
      countP_map_const_zero isSnapshotEvent Event.postJobHook rfl]
    omega

theorem snapCond_iff (p : Pipeline) (b : BlockInput) :
    snapCond p b = true ↔
      (b.num ≠ p.requestedStartBlockNum ∧
        ((p.storesSaveInterval ≠ 0 ∧ b.num % p.storesSaveInterval = 0) ∨
         (p.isBackprocessing = true ∧ b.num = p.stopBlockNum ∧
           p.stopBlockNum ≠ 0))) := by
  unfold snapCond
  simp only [Bool.and_eq_true, Bool.or_eq_true, Bool.not_eq_true',
    beq_eq_false_iff_ne, bne_iff_ne, beq_iff_eq, ne_eq, and_assoc]
  constructor
  · rintro ⟨h1, h2⟩
    exact ⟨fun h => h1 h.symm, h2⟩
  · rintro ⟨h1, h2⟩
    exact ⟨fun h => h1 h.symm, h2⟩

/-- C2 (as stated by the claim) is refuted: at start block 15 with save
interval 10, the handler calls saveStoresSnapshots on block 10, which is
below the requested start block. -/
theorem claim_C2_counterexample :
    countSnapshots (blockHandler pC2 [] bC2).1 = 1 ∧
    bC2.num < pC2.requestedStartBlockNum := by
  constructor
  · decide
  · decide

/-- C2 (amended): on the normal path the handler snapshots all stores if and
only if the block number differs from the requested start block (rather than
exceeding it) and either the save interval boundary is reached with a
nonzero interval, or the pipeline is a sub-request at its nonzero stop
block. -/
theorem claim_C2_snapshot_condition (p : Pipeline) (execs : List ExecBehavior)
    (b : BlockInput) (hc : p.cacheUpdateResult = none)
    (hh : ∀ x ∈ p.preBlockHooks, x = none) :
    countSnapshots (blockHandler p execs b).1 ≠ 0 ↔
      (b.num ≠ p.requestedStartBlockNum ∧
        ((p.storesSaveInterval ≠ 0 ∧ b.num % p.storesSaveInterval = 0) ∨
         (p.isBackprocessing = true ∧ b.num = p.stopBlockNum ∧
           p.stopBlockNum ≠ 0))) := by
  rw [countSnap_blockHandler p execs b hc hh, ← snapCond_iff p b]
  split
  · next h => simp [h]
  · next h => simp [h]

/-- Witness for the amended C2 at a concrete boundary block. -/
theorem claim_C2_witness :
    countSnapshots (blockHandler pW2 [] bW2).1 ≠ 0 :=
  (claim_C2_snapshot_condition pW2 [] bW2 rfl
      (fun x hx => by simp [pW2] at hx)).mpr
    ⟨by decide, Or.inl ⟨by decide, by decide⟩⟩

theorem stopStage_stopped (p : Pipeline) (execs : List ExecBehavior)
    (b : BlockInput) (h1 : b.num ≥ p.stopBlockNum) (h2 : p.stopBlockNum ≠ 0)
    (hcs : p.cacheSaveResult = none) :
    stopStage p execs b =
      .done (if p.isBackprocessing then [Event.saveOutputCaches] else [])
        (.fail .eof) := by
  unfold stopStage
  rw [if_pos ⟨h1, h2⟩]
  cases hbp : p.isBackprocessing <;> simp [hcs]

theorem snapshotStage_of_snapNone (p : Pipeline) (execs : List ExecBehavior)
    (b : BlockInput) (hs : p.snapshotResult = none) :
    snapshotStage p execs b = (stopStage p execs b).prepend
      (if snapCond p b then [Event.saveStoresSnapshots b.num] else []) := by
  unfold snapshotStage
  split
  · next h => simp [hs, h]
  · next h => simp [h, bodyPrepend_nil]

/-- C7: at a block at or above a nonzero stop block, the handler returns
io.EOF without executing any module and without emitting BlockScopedData,
and a sub-request first saves the output caches. -/
theorem claim_C7_stop_block_terminates (p : Pipeline)
    (execs : List ExecBehavior) (b : BlockInput)
    (hc : p.cacheUpdateResult = none)
    (hh : ∀ x ∈ p.preBlockHooks, x = none)
    (hs : p.snapshotResult = none) (hcs : p.cacheSaveResult = none)
    (h1 : b.num ≥ p.stopBlockNum) (h2 : p.stopBlockNum ≠ 0) :
    (blockHandler p execs b).2 = .fail .eof ∧
    countExecutions (blockHandler p execs b).1 = 0 ∧
    countBlockScopedData (blockHandler p execs b).1 = 0 ∧
    (p.isBackprocessing = true →
      Event.saveOutputCaches ∈ (blockHandler p execs b).1) := by
  have hbody : handlerBody p execs b =
      .done ((Event.cacheUpdate ::
          p.preBlockHooks.map (fun _ => Event.preBlockHook)) ++
        ((if snapCond p b then [Event.saveStoresSnapshots b.num] else []) ++
          (if p.isBackprocessing then [Event.saveOutputCaches] else [])))
        (.fail .eof) := by
    rw [handlerBody_normal p execs b hc hh,
      snapshotStage_of_snapNone p execs b hs,
      stopStage_stopped p execs b h1 h2 hcs]
    simp [BodyResult.prepend]
  have htr : (blockHandler p execs b).1 =
      ((Event.cacheUpdate ::
          p.preBlockHooks.map (fun _ => Event.preBlockHook)) ++
        ((if snapCond p b then [Event.saveStoresSnapshots b.num] else []) ++
          (if p.isBackprocessing then [Event.saveOutputCaches] else []))) ++
        p.postJobHooks.map (fun _ => Event.postJobHook) := by
    unfold blockHandler
    rw [hbody]
  have hout : (blockHandler p execs b).2 = .fail .eof := by
    unfold blockHandler
    rw [hbody]
  refine ⟨hout, ?_, ?_, ?_⟩
  · rw [countExecutions, htr]
    rw [List.countP_append, List.countP_append, List.countP_append,
      List.countP_cons, countP_map_const_zero isExecuteEvent Event.preBlockHook rfl,
      countP_map_const_zero isExecuteEvent Event.postJobHook rfl]
    have e1 : List.countP isExecuteEvent
        (if snapCond p b then [Event.saveStoresSnapshots b.num] else []) = 0 := by
      split <;> simp [isExecuteEvent]
    have e2 : List.countP isExecuteEvent
        (if p.isBackprocessing then [Event.saveOutputCaches] else []) = 0 := by
      split <;> simp [isExecuteEvent]
    rw [e1, e2]
    simp [isExecuteEvent]
  · rw [countBlockScopedData, htr]
    rw [List.countP_append, List.countP_append, List.countP_append,
      List.countP_cons,
      countP_map_const_zero isBlockScopedDataEvent Event.preBlockHook rfl,
      countP_map_const_zero isBlockScopedDataEvent Event.postJobHook rfl]
    have e1 : List.countP isBlockScopedDataEvent
        (if snapCond p b then [Event.saveStoresSnapshots b.num] else []) = 0 := by
      split <;> simp [isBlockScopedDataEvent]
    have e2 : List.countP isBlockScopedDataEvent
        (if p.isBackprocessing then [Event.saveOutputCaches] else []) = 0 := by
      split <;> simp [isBlockScopedDataEvent]
    rw [e1, e2]
    simp [isBlockScopedDataEvent]
  · intro hbp
    rw [htr]
    simp [hbp]

/-- Witness for C7: a sub-request at its stop block 100. -/
theorem claim_C7_witness :
    (blockHandler pW7 execsW7 bW7).2 = .fail .eof ∧
    countExecutions (blockHandler pW7 execsW7 bW7).1 = 0 ∧
    countBlockScopedData (blockHandler pW7 execsW7 bW7).1 = 0 ∧
    (pW7.isBackprocessing = true →
      Event.saveOutputCaches ∈ (blockHandler pW7 execsW7 bW7).1) :=
  claim_C7_stop_block_terminates pW7 execsW7 bW7 rfl
    (fun x hx => by simp [pW7] at hx) rfl rfl (by decide) (by decide)

/-- C8: a panic anywhere in the handler body is converted into an error
naming the block number, and whenever the handler returns a non-nil error
the full list of post-job hooks still runs (one trailing event per hook). -/
theorem claim_C8_panic_and_post_job_hooks (p : Pipeline)
    (execs : List ExecBehavior) (b : BlockInput) :
    (∀ t m, handlerBody p execs b = .panicked t m →
      (blockHandler p execs b).2 =
        .fail (.msg ("panic at block " ++ toString b.num ++ ": " ++ m))) ∧
    (∀ e, (blockHandler p execs b).2 = .fail e →
      (blockHandler p execs b).1 = (handlerBody p execs b).trace ++
        p.postJobHooks.map (fun _ => Event.postJobHook)) := by
  constructor
  · intro t m hB
    unfold blockHandler
    rw [hB]
  · intro e hE
    unfold blockHandler at hE ⊢
    cases hB : handlerBody p execs b with
    | done t out =>
      rw [hB] at hE
      cases out with
      | ok => simp at hE
      | fail e' => simp [BodyResult.trace]
    | panicked t m => simp [BodyResult.trace]

/-- Witness for C8: a concrete pipeline whose executor panics on block 7. -/
theorem claim_C8_witness :
    (blockHandler pW8 execsW8 bW8).2 =
      .fail (.msg ("panic at block " ++ toString bW8.num ++ ": " ++ "boom")) ∧
    (blockHandler pW8 execsW8 bW8).1 = (handlerBody pW8 execsW8 bW8).trace ++
      pW8.postJobHooks.map (fun _ => Event.postJobHook) := by
  have h1 := (claim_C8_panic_and_post_job_hooks pW8 execsW8 bW8).1
    [Event.cacheUpdate, Event.executeModule "X"] "boom" (by decide)
  exact ⟨h1, (claim_C8_panic_and_post_job_hooks pW8 execsW8 bW8).2 _ h1⟩

theorem loopPrepend_nil (r : LoopResult) : r.prepend [] = r := by
  cases r <;> simp [LoopResult.prepend]

theorem loopPrepend_prepend (t1 t2 : List Event) (r : LoopResult) :
    (r.prepend t2).prepend t1 = r.prepend (t1 ++ t2) := by
  cases r <;> simp [LoopResult.prepend]

theorem sentMessages_append (a b : List Event) :
    sentMessages (a ++ b) = sentMessages a ++ sentMessages b := by
  simp [sentMessages, List.filterMap_append]

theorem sentMessages_map_const {α : Type} (ev : Event) (l : List α)
    (hev : ∀ m : Message, ev ≠ Event.send m) :
    sentMessages (l.map (fun _ => ev)) = [] := by
  rw [sentMessages, List.filterMap_map]
  apply List.filterMap_eq_nil_iff.mpr
  intro a _
  cases ev <;> first | rfl | exact absurd rfl (hev _)

theorem sentMessages_exec_map (oks : List OkSpec) :
    sentMessages (oks.map (fun o => Event.executeModule o.name)) = [] := by
  rw [sentMessages, List.filterMap_map]
  exact List.filterMap_eq_nil_iff.mpr (fun a _ => rfl)

theorem execLoop_ok_chain :
    ∀ (oks : List OkSpec) (acc : List ModuleOutput) (rest : List ExecBehavior),
      execLoop acc (oks.map mkOkExec ++ rest) =
        (execLoop (acc ++ oks.map okOutput) rest).prepend
          (oks.map (fun o => Event.executeModule o.name))
  | [], acc, rest => by simp [loopPrepend_nil]
  | o :: oks, acc, rest => by
    have step : execLoop acc ((o :: oks).map mkOkExec ++ rest) =
        (execLoop (acc ++ [okOutput o]) (oks.map mkOkExec ++ rest)).prepend
          [Event.executeModule o.name] := by
      simp only [List.map_cons, List.cons_append]
      rfl
    rw [step, execLoop_ok_chain oks (acc ++ [okOutput o]) rest,
      loopPrepend_prepend]
    simp [List.append_assoc]

theorem execLoop_fail (oks : List OkSpec) (fname m : String)
    (logs : List String) (tr : Bool) (rest : List ExecBehavior) :
    execLoop [] (oks.map mkOkExec ++
        { name := fname, run := .err m logs tr } :: rest) =
      .failed (oks.map (fun o => Event.executeModule o.name) ++
        [Event.executeModule fname,
         Event.send (Message.modulesProgress
           (returnFailureProgress (oks.map okOutput) fname m logs tr))]) m := by
  rw [execLoop_ok_chain oks [] _]
  simp [execLoop, LoopResult.prepend]

theorem execLoop_all_ok (oks : List OkSpec) :
    execLoop [] (oks.map mkOkExec) =
      .success (oks.map (fun o => Event.executeModule o.name))
        (oks.map okOutput) := by
  have h := execLoop_ok_chain oks [] []
  simpa [execLoop, LoopResult.prepend] using h

theorem sourceStage_normal (p : Pipeline) (execs : List ExecBehavior)
    (b : BlockInput) (hv : p.vmType = "wasm/rust-v1")
    (hp : b.payloadErr = none) :
    sourceStage p execs b = execStage p execs b := by
  simp [sourceStage, hv, hp]

theorem stopStage_not_stopped (p : Pipeline) (execs : List ExecBehavior)
    (b : BlockInput) (h : ¬ (b.num ≥ p.stopBlockNum ∧ p.stopBlockNum ≠ 0)) :
    stopStage p execs b = sourceStage p execs b := by
  simp [stopStage, h]

/-- C5: when an executor fails after some modules succeeded in the block,
exactly one ModulesProgress message is sent, carrying the earlier successful
modules as Failed with their logs and truncation flags but no reason and the
failing module last as Failed with the error message as reason plus its
logs; afterwards the executor error itself is returned to the caller. -/
theorem claim_C5_failure_progress (p : Pipeline) (b : BlockInput)
    (oks : List OkSpec) (fname m : String) (logs : List String) (tr : Bool)
    (rest : List ExecBehavior)
    (hc : p.cacheUpdateResult = none)
    (hh : ∀ x ∈ p.preBlockHooks, x = none)
    (hs : p.snapshotResult = none)
    (hstop : ¬ (b.num ≥ p.stopBlockNum ∧ p.stopBlockNum ≠ 0))
    (hv : p.vmType = "wasm/rust-v1")
    (hp : b.payloadErr = none) :
    sentMessages (blockHandler p
        (oks.map mkOkExec ++ { name := fname, run := .err m logs tr } :: rest)
        b).1 =
      [Message.modulesProgress
        (oks.map (fun o =>
          { name := o.name
            progress := ProgressType.failed none o.logs o.logsTruncated }) ++
         [{ name := fname
            progress := ProgressType.failed (some m) logs tr }])] ∧
    (blockHandler p
        (oks.map mkOkExec ++ { name := fname, run := .err m logs tr } :: rest)
        b).2 = .fail (.msg m) := by
  have hprog : returnFailureProgress (oks.map okOutput) fname m logs tr =
      oks.map (fun o =>
        ({ name := o.name
           progress := ProgressType.failed none o.logs o.logsTruncated } :
          ModuleProgress)) ++
      [{ name := fname, progress := ProgressType.failed (some m) logs tr }] := by
    simp [returnFailureProgress, okOutput, List.map_map, Function.comp]
  have hexec : execStage p
      (oks.map mkOkExec ++ { name := fname, run := .err m logs tr } :: rest) b =
      .done (oks.map (fun o => Event.executeModule o.name) ++
        [Event.executeModule fname,
         Event.send (Message.modulesProgress
           (returnFailureProgress (oks.map okOutput) fname m logs tr))])
        (.fail (.msg m)) := by
    simp [execStage, execLoop_fail]
  have hbody : handlerBody p
      (oks.map mkOkExec ++ { name := fname, run := .err m logs tr } :: rest) b =
      .done ((Event.cacheUpdate ::
          p.preBlockHooks.map (fun _ => Event.preBlockHook)) ++
        ((if snapCond p b then [Event.saveStoresSnapshots b.num] else []) ++
          (oks.map (fun o => Event.executeModule o.name) ++
            [Event.executeModule fname,
             Event.send (Message.modulesProgress
               (returnFailureProgress (oks.map okOutput) fname m logs tr))])))
        (.fail (.msg m)) := by
    rw [handlerBody_normal _ _ _ hc hh, snapshotStage_of_snapNone _ _ _ hs,
      stopStage_not_stopped _ _ _ hstop, sourceStage_normal _ _ _ hv hp, hexec]
    simp [BodyResult.prepend]
  constructor
  · unfold blockHandler
    rw [hbody]
    simp only []
    rw [sentMessages_append, sentMessages_append, sentMessages_append,
      sentMessages_map_const Event.postJobHook _ (fun m => by simp)]
    have h1 : sentMessages (Event.cacheUpdate ::
        p.preBlockHooks.map (fun _ => Event.preBlockHook)) = [] := by
      simp [sentMessages, List.filterMap_map]
    have h2 : sentMessages
        (if snapCond p b then [Event.saveStoresSnapshots b.num] else []) = [] := by
      split <;> rfl
    rw [h1, h2, sentMessages_append, sentMessages_exec_map]
    simp [sentMessages, hprog]
  · unfold blockHandler
    rw [hbody]

/-- Witness for C5: one successful module A, then module B fails. -/
theorem claim_C5_witness :
    sentMessages (blockHandler pW5
        (oksW5.map mkOkExec ++
          { name := "B", run := .err "boom" ["lb"] true } :: []) bW5).1 =
      [Message.modulesProgress
        (oksW5.map (fun o =>
          { name := o.name
            progress := ProgressType.failed none o.logs o.logsTruncated }) ++
         [{ name := "B", progress := ProgressType.failed (some "boom") ["lb"] true }])] ∧
    (blockHandler pW5
        (oksW5.map mkOkExec ++
          { name := "B", run := .err "boom" ["lb"] true } :: []) bW5).2 =
      .fail (.msg "boom") :=
  claim_C5_failure_progress pW5 bW5 oksW5 "B" "boom" ["lb"] true [] rfl
    (fun x hx => by simp [pW5] at hx) rfl (by decide) rfl rfl

/-- C6 (as stated by the claim) is refuted: a sub-request whose single
output module is the store S does emit a BlockScopedData on block 100. -/
theorem claim_C6_counterexample :
    countBlockScopedData (blockHandler p6 execs6 b6).1 = 1 := by
  decide

/-- C6 (amended): in a sub-request, a processed block at or above the
requested start block with a nonempty executor list that all succeed emits
one BlockScopedData carrying every module output (store modules included)
followed by one ModulesProgress carrying the ProcessedRanges of the leaf
stores; nothing else is sent. -/
theorem claim_C6_subrequest_emissions (p : Pipeline) (b : BlockInput)
    (oks : List OkSpec)
    (hbp : p.isBackprocessing = true)
    (hne : oks ≠ [])
    (hge : b.num ≥ p.requestedStartBlockNum)
    (hc : p.cacheUpdateResult = none)
    (hh : ∀ x ∈ p.preBlockHooks, x = none)
    (hs : p.snapshotResult = none)
    (hstop : ¬ (b.num ≥ p.stopBlockNum ∧ p.stopBlockNum ≠ 0))
    (hv : p.vmType = "wasm/rust-v1")
    (hp : b.payloadErr = none) :
    sentMessages (blockHandler p (oks.map mkOkExec) b).1 =
      [Message.blockScopedData (oks.map okOutput)
        { number := b.num, id := b.id, timestamp := b.timestamp }
        b.step b.cursor,
       Message.modulesProgress (p.leafStores.map (fun store =>
         { name := store.name
           progress := ProgressType.processedRanges
             [{ startBlock := store.storeInitialBlock
                endBlock := b.num }] }))] := by
  have hlen : 0 < oks.length := List.length_pos.mpr hne
  have hexec : execStage p (oks.map mkOkExec) b =
      .done (oks.map (fun o => Event.executeModule o.name) ++
        ((returnOutputs p
            { number := b.num, id := b.id, timestamp := b.timestamp }
            b.step b.cursor (oks.map okOutput)).map Event.send ++
          [Event.flushStores])) .ok := by
    simp [execStage, execLoop_all_ok, hge]
  have hbody : handlerBody p (oks.map mkOkExec) b =
      .done ((Event.cacheUpdate ::
          p.preBlockHooks.map (fun _ => Event.preBlockHook)) ++
        ((if snapCond p b then [Event.saveStoresSnapshots b.num] else []) ++
          (oks.map (fun o => Event.executeModule o.name) ++
            ((returnOutputs p
                { number := b.num, id := b.id, timestamp := b.timestamp }
                b.step b.cursor (oks.map okOutput)).map Event.send ++
              [Event.flushStores])))) .ok := by
    rw [handlerBody_normal _ _ _ hc hh, snapshotStage_of_snapNone _ _ _ hs,
      stopStage_not_stopped _ _ _ hstop, sourceStage_normal _ _ _ hv hp, hexec]
    simp [BodyResult.prepend]
  have hmsgs : returnOutputs p
      { number := b.num, id := b.id, timestamp := b.timestamp }
      b.step b.cursor (oks.map okOutput) =
      [Message.blockScopedData (oks.map okOutput)
        { number := b.num, id := b.id, timestamp := b.timestamp }
        b.step b.cursor,
       Message.modulesProgress (p.leafStores.map (fun store =>
         { name := store.name
           progress := ProgressType.processedRanges
             [{ startBlock := store.storeInitialBlock
                endBlock := b.num }] }))] := by
    simp [returnOutputs, hlen, hbp]
  unfold blockHandler
  rw [hbody]
  simp only []
  rw [sentMessages_append, sentMessages_append, sentMessages_append,
    sentMessages_exec_map]
  have h1 : sentMessages (Event.cacheUpdate ::
      p.preBlockHooks.map (fun _ => Event.preBlockHook)) = [] := by
    simp [sentMessages, List.filterMap_map]
  have h2 : sentMessages
      (if snapCond p b then [Event.saveStoresSnapshots b.num] else []) = [] := by
    split <;> rfl
  rw [h1, h2, hmsgs]
  simp [sentMessages]

/-- Witness for the amended C6 at the sub-request over [100, 200). -/
theorem claim_C6_witness :
    sentMessages (blockHandler p6 (oksW6.map mkOkExec) b6).1 =
      [Message.blockScopedData (oksW6.map okOutput)
        { number := b6.num, id := b6.id, timestamp := b6.timestamp }
        b6.step b6.cursor,
       Message.modulesProgress (p6.leafStores.map (fun store =>
         { name := store.name
           progress := ProgressType.processedRanges
             [{ startBlock := store.storeInitialBlock
                endBlock := b6.num }] }))] :=
  claim_C6_subrequest_emissions p6 b6 oksW6 rfl (by decide) (by decide) rfl
    (fun x hx => by simp [p6] at hx) rfl (by decide) rfl rfl

/-- C3: resolveStartBlockNum fails with InvalidArgument on a negative start
block; returns the start block as a uint64 when the cursor is empty; for a
parsed cursor returns cursor block + 1 when the step matches irreversible or
new and the cursor block itself when the step is undo; an unparseable cursor
is an InvalidArgument error and an unknown step is an error. -/
theorem claim_C3_resolve_start_block (req : Request)
    (parseCursor : String → Except String Cursor) :
    (req.startBlockNum < 0 →
      resolveStartBlockNum req parseCursor =
        .error (.invalidArgument "start block num must be positive")) ∧
    (0 ≤ req.startBlockNum → req.startCursor = "" →
      resolveStartBlockNum req parseCursor = .ok req.startBlockNum.toNat) ∧
    (∀ c, 0 ≤ req.startBlockNum → req.startCursor ≠ "" →
      parseCursor req.startCursor = .ok c →
      ((stepMatches c.step stepIrreversible = true ∨
          stepMatches c.step stepNew = true) →
        resolveStartBlockNum req parseCursor = .ok (c.blockNum + 1)) ∧
      (c.step = stepUndo →
        resolveStartBlockNum req parseCursor = .ok c.blockNum) ∧
      (stepMatches c.step stepIrreversible = false →
        stepMatches c.step stepNew = false →
        stepMatches c.step stepUndo = false →
        resolveStartBlockNum req parseCursor =
          .error (.other "invalid start cursor step"))) ∧
    (∀ e, 0 ≤ req.startBlockNum → req.startCursor ≠ "" →
      parseCursor req.startCursor = .error e →
      resolveStartBlockNum req parseCursor =
        .error (.invalidArgument ("invalid start cursor: " ++ e))) := by
  refine ⟨?_, ?_, ?_, ?_⟩
  · intro h
    simp [resolveStartBlockNum, h]
  · intro h1 h2
    simp [resolveStartBlockNum, h2, not_lt.mpr h1]
  · intro c h1 h2 h3
    have hn := not_lt.mpr h1
    refine ⟨?_, ?_, ?_⟩
    · rintro (hi | hw)
      · simp [resolveStartBlockNum, hn, h2, h3, hi]
      · by_cases hi : stepMatches c.step stepIrreversible = true
        · simp [resolveStartBlockNum, hn, h2, h3, hi]
        · simp [resolveStartBlockNum, hn, h2, h3, hi, hw]
    · intro hu
      have e1 : stepMatches c.step stepIrreversible = false := by
        rw [hu]; decide
      have e2 : stepMatches c.step stepNew = false := by
        rw [hu]; decide
      have e3 : stepMatches c.step stepUndo = true := by
        rw [hu]; decide
      simp [resolveStartBlockNum, hn, h2, h3, e1, e2, e3]
    · intro f1 f2 f3
      simp [resolveStartBlockNum, hn, h2, h3, f1, f2, f3]
  · intro e h1 h2 h3
    simp [resolveStartBlockNum, not_lt.mpr h1, h2, h3]

/-- Witness for C3: a cursor at block 49 with step irreversible resolves to
start block 50. -/
theorem claim_C3_witness :
    resolveStartBlockNum reqW3 parseW3 = .ok 50 :=
  ((claim_C3_resolve_start_block reqW3 parseW3).2.2.1
      { blockNum := 49, id := "X", step := stepIrreversible }
      (by decide) (by decide) rfl).1 (Or.inl (by decide))

/-- C4: the linear handoff block is min(stopBlock, recentFinalBlock) in
production mode, with recentFinalBlock alone when stopBlock is 0 and a
failure when the head is unavailable and stopBlock is 0; in development mode
it is min(requestStartBlock, recentFinalBlock), or requestStartBlock when
the head is unavailable. -/
theorem claim_C4_linear_handoff (request : Request) (isSubRequest : Bool)
    (getRecentFinalBlock : Except String Nat)
    (parseCursor : String → Except String Cursor) (s : Nat)
    (hres : resolveStartBlockNum request parseCursor = .ok s) :
    (request.productionMode = true →
      (∀ f, getRecentFinalBlock = .ok f → request.stopBlockNum ≠ 0 →
        linearHandoffResult request isSubRequest getRecentFinalBlock
          parseCursor = .ok (minOf request.stopBlockNum f)) ∧
      (∀ f, getRecentFinalBlock = .ok f → request.stopBlockNum = 0 →
        linearHandoffResult request isSubRequest getRecentFinalBlock
          parseCursor = .ok f) ∧
      (∀ e, getRecentFinalBlock = .error e → request.stopBlockNum = 0 →
        linearHandoffResult request isSubRequest getRecentFinalBlock
          parseCursor = .error
            (.other ("cannot determine a recent finalized block: " ++ e)))) ∧
    (request.productionMode = false →
      (∀ f, getRecentFinalBlock = .ok f →
        linearHandoffResult request isSubRequest getRecentFinalBlock
          parseCursor = .ok (minOf s f)) ∧
      (∀ e, getRecentFinalBlock = .error e →
        linearHandoffResult request isSubRequest getRecentFinalBlock
          parseCursor = .ok s)) := by
  constructor
  · intro hpm
    refine ⟨?_, ?_, ?_⟩
    · intro f hf hstop
      simp [linearHandoffResult, BuildRequestDetails, hres, hpm, hf, hstop,
        mkRequestDetails, Except.map]
    · intro f hf hstop
      simp [linearHandoffResult, BuildRequestDetails, hres, hpm, hf, hstop,
        mkRequestDetails, Except.map]
    · intro e he hstop
      simp [linearHandoffResult, BuildRequestDetails, hres, hpm, he, hstop,
        mkRequestDetails, Except.map]
  · intro hpm
    refine ⟨?_, ?_⟩
    · intro f hf
      simp [linearHandoffResult, BuildRequestDetails, hres, hpm, hf,
        mkRequestDetails, Except.map]
    · intro e he
      simp [linearHandoffResult, BuildRequestDetails, hres, hpm, he,
        mkRequestDetails, Except.map]

/-- Witness for C4 in development mode with head block 80. -/
theorem claim_C4_witness :
    linearHandoffResult reqW4 false (.ok 80) parseW4 = .ok (minOf 100 80) :=
  ((claim_C4_linear_handoff reqW4 false (.ok 80) parseW4 100 rfl).2 rfl).1 80 rfl

/-- C9: WithBytesMeter never installs a nil meter: a nil argument is
replaced by a freshly constructed default bytes meter, so the bytesMeter
field of either tier service is non-nil after the option is applied. -/
theorem claim_C9_bytes_meter_non_nil (bm : Option Meter) (s1 : Tier1Service)
    (s2 : Tier2Service) :
    serviceBytesMeter (WithBytesMeter bm (.tier1 s1)) ≠ none ∧
    serviceBytesMeter (WithBytesMeter bm (.tier2 s2)) ≠ none ∧
    (bm = none →
      serviceBytesMeter (WithBytesMeter bm (.tier1 s1)) = some newBytesMeter ∧
      serviceBytesMeter (WithBytesMeter bm (.tier2 s2)) = some newBytesMeter) := by
  cases bm <;> simp [WithBytesMeter, serviceBytesMeter]

/-- Witness for C9: applying the option with a nil meter to both tiers. -/
theorem claim_C9_witness :
    serviceBytesMeter (WithBytesMeter none (.tier1 sW9)) = some newBytesMeter ∧
    serviceBytesMeter (WithBytesMeter none (.tier2 sW9b)) = some newBytesMeter :=
  (claim_C9_bytes_meter_non_nil none sW9 sW9b).2.2 rfl

theorem bindFlag_value_of_changed (env : String → String) (v : String)
    (f : Flag) (h : f.changed = true) : (bindFlag env v f).value = f.value := by
  unfold bindFlag
  split
  · simp [h]
  · rfl

theorem forall2_flagValuePreserved_map (g : Flag → Flag)
    (hg : ∀ f, flagValuePreserved f (g f)) :
    ∀ l : List Flag, List.Forall₂ flagValuePreserved l (l.map g)
  | [] => List.Forall₂.nil
  | f :: l =>
    List.Forall₂.cons (hg f) (forall2_flagValuePreserved_map g hg l)

theorem forall2_flag_append : ∀ {l₁ l₂ u₁ u₂ : List Flag},
    List.Forall₂ flagValuePreserved l₁ l₂ →
    List.Forall₂ flagValuePreserved u₁ u₂ →
    List.Forall₂ flagValuePreserved (l₁ ++ u₁) (l₂ ++ u₂)
  | _, _, _, _, List.Forall₂.nil, h => by simpa using h
  | _, _, _, _, List.Forall₂.cons h1 h2, h =>
    List.Forall₂.cons h1 (forall2_flag_append h2 h)

mutual

theorem auxFlagsCmd (env : String → String) (pfx : String) :
    ∀ (c : Command) (segments : List String),
      List.Forall₂ flagValuePreserved (allFlags c)
        (allFlags (recurseCommands env pfx c segments))
  | .mk n pFlags cFlags subs, segments => by
    simp only [recurseCommands, allFlags]
    exact forall2_flag_append
      (forall2_flag_append
        (forall2_flagValuePreserved_map _
          (fun f h => bindFlag_value_of_changed env _ f h) pFlags)
        (forall2_flagValuePreserved_map _
          (fun f h => bindFlag_value_of_changed env _ f h) cFlags))
      (auxFlagsList env pfx subs segments)

theorem auxFlagsList (env : String → String) (pfx : String) :
    ∀ (cs : List Command) (segments : List String),
      List.Forall₂ flagValuePreserved (allFlagsList cs)
        (allFlagsList (recurseCommandList env pfx cs segments))
  | [], _ => List.Forall₂.nil
  | c :: cs, segments => by
    simp only [recurseCommandList, allFlagsList]
    exact forall2_flag_append (auxFlagsCmd env pfx c (segments ++ [c.name]))
      (auxFlagsList env pfx cs segments)

end

/-- C10: environment-variable binding never overrides a flag already set on
the command line: every flag of the command tree whose Changed marker is set
keeps its value across recurseCommands (the flags are visited positionally,
so Forall2 pairs each original flag with its bound counterpart). -/
theorem claim_C10_env_binding_preserves_changed_flags
    (env : String → String) (pfx : String) (c : Command)
    (segments : List String) :
    List.Forall₂ flagValuePreserved (allFlags c)
      (allFlags (recurseCommands env pfx c segments)) :=
  auxFlagsCmd env pfx c segments

/-- Witness for C10 at a concrete command tree with a changed flag. -/
theorem claim_C10_witness :
    List.Forall₂ flagValuePreserved (allFlags cmdW)
      (allFlags (recurseCommands envW "SUBSTREAMS" cmdW [])) :=
  claim_C10_env_binding_preserves_changed_flags envW "SUBSTREAMS" cmdW []

end SubstreamsSpec
